import Mathlib

/-
  Shallow embedding of the bunny-chat-client message/session engine.

  Source files embedded here:
  - src/src/App.tsx            : message stream reducer (messageHandlerRef.current),
                                 loadMoreHistory, the onOpen handler
  - src/src/services/auth.ts   : AuthService.fetchWithCredentials / checkSession
  - src/unnamed/part_001       : WebSocketService (onclose handler, disconnect)

  JavaScript conventions mirrored:
  - optional / possibly-undefined fields become Option types; the strict
    equality `===` on such fields is Option equality (undefined === undefined
    is true, undefined === "x" is false);
  - string truthiness (`if (x)`) is "present and non-empty";
  - arrays are always truthy, so `if (message.userList)` tests presence only.
-/

namespace BunnyChat

/-- Wire frame kinds, from src/types.ts MessageType. -/
inductive MessageType where
  | chat
  | notification
  | user_list
  | join
  | leave
  | error
  | message
  | history_batch
  | load_more_history
  | image
  | reaction
deriving DecidableEq, Repr

/-- One rendered reaction on a DisplayMessage (src/types.ts, reactions array). -/
structure ReactionEntry where
  username : String
  reaction : String
  timestamp : String
deriving DecidableEq, Repr

/-- A nested reaction event read off a historical item through the
`(histMsg as WebSocketMessage).history` cast in the history_batch case of
App.tsx. Only the fields the code reads are carried. -/
structure HistReaction where
  type : MessageType
  username : String
  reaction : Option String := none
  timestamp : String
deriving DecidableEq, Repr

/-- An element of `WebSocketMessage.history` (src/types.ts): `username`,
`room`, `timestamp` are required strings there, the rest optional.
The `history` field is what the unsound cast in App.tsx reads. -/
structure HistItem where
  id : Option Nat := none
  type : MessageType
  username : String
  content : Option String := none
  room : String := ""
  timestamp : String
  imageData : Option String := none
  imageType : Option String := none
  reactionToId : Option Nat := none
  reaction : Option String := none
  history : Option (List HistReaction) := none
deriving DecidableEq, Repr

/-- Inbound/outbound wire frame, from src/types.ts WebSocketMessage. -/
structure WebSocketMessage where
  id : Option Nat := none
  type : MessageType
  username : Option String := none
  content : Option String := none
  room : Option String := none
  userList : Option (List String) := none
  timestamp : Option String := none
  imageData : Option String := none
  imageType : Option String := none
  reactionToId : Option Nat := none
  reaction : Option String := none
  history : Option (List HistItem) := none
  pageSize : Option Nat := none
  pageToken : Option String := none
  hasMore : Option Bool := none
deriving DecidableEq, Repr

/-- Client-side log entry, from src/types.ts DisplayMessage. -/
structure DisplayMessage where
  id : Option Nat := none
  type : MessageType
  sender : Option String := none
  content : Option String := none
  timestamp : Option String := none
  imageData : Option String := none
  imageType : Option String := none
  reactions : Option (List ReactionEntry) := none
deriving DecidableEq, Repr

/-- The App component state touched by the reducer (App.tsx useState hooks):
`localUser` is the `username` state mirrored by `usernameRef.current`. -/
structure AppState where
  localUser : String
  roomName : String
  connected : Bool
  messages : List DisplayMessage
  users : List String
  hasMoreHistory : Bool
  pageToken : String
  hasNewMessage : Bool
deriving DecidableEq, Repr

/-- JavaScript truthiness of a possibly-undefined string field. -/
def truthy : Option String → Bool
  | some s => s != ""
  | none => false

/-- The validity filter applied to `message.history` in the reaction case of
App.tsx (`reaction.type === "reaction" && reaction.username &&
reaction.reaction && reaction.timestamp`). -/
def validReactionItems (l : List HistItem) : List HistItem :=
  l.filter fun r =>
    decide (r.type = MessageType.reaction) && (r.username != "")
      && truthy r.reaction && (r.timestamp != "")

/-- The map from a valid history item to a rendered reaction entry
(App.tsx reaction case; the TS non-null assertions are no-ops at runtime). -/
def histItemToEntry (r : HistItem) : ReactionEntry :=
  { username := r.username, reaction := r.reaction.getD "", timestamp := r.timestamp }

/-- The validity filter applied to a historical item's embedded reaction
history in the history_batch case of App.tsx. -/
def validNestedReactions (l : List HistReaction) : List HistReaction :=
  l.filter fun r =>
    decide (r.type = MessageType.reaction) && (r.username != "")
      && truthy r.reaction && (r.timestamp != "")

/-- The map from a valid nested reaction event to a rendered reaction entry
(history_batch case of App.tsx). -/
def nestedToEntry (r : HistReaction) : ReactionEntry :=
  { username := r.username, reaction := r.reaction.getD "", timestamp := r.timestamp }

/-- The per-item map of the history_batch case of App.tsx: a historical item
becomes a log entry; non-image types collapse to `chat`. -/
def histToDisplay (h : HistItem) : DisplayMessage :=
  { id := h.id,
    type := if h.type = MessageType.image then MessageType.image else MessageType.chat,
    sender := some h.username,
    content := h.content,
    timestamp := some h.timestamp,
    imageData := h.imageData,
    imageType := h.imageType,
    reactions := h.history.map fun l => (validNestedReactions l).map nestedToEntry }

/-- The `findIndex` predicate of the image case of App.tsx:
`msg.type === "image" && msg.imageData === message.imageData &&
msg.sender === username`. -/
abbrev imageMatch (localUser : String) (dat : Option String) (e : DisplayMessage) : Prop :=
  e.type = MessageType.image ∧ e.imageData = dat ∧ e.sender = some localUser

/-- The `findIndex` + in-place id patch of the image case of App.tsx: patch
the id of the first entry whose type is image and whose imageData and sender
match; `none` when no entry matches (findIndex returned -1). -/
def patchFirstImageMatch (localUser : String) (dat : Option String) (newId : Option Nat) :
    List DisplayMessage → Option (List DisplayMessage)
  | [] => none
  | msg :: rest =>
    if imageMatch localUser dat msg then
      some ({ msg with id := newId } :: rest)
    else
      (patchFirstImageMatch localUser dat newId rest).map fun ms => msg :: ms

/-- The `find` + in-place reactions update of the reaction case of App.tsx:
replace the reactions list of the first entry whose id matches
`reactionToId`; `none` when the target message is not present. -/
def setReactionsAtFirstId (n : Nat) (rs : List ReactionEntry) :
    List DisplayMessage → Option (List DisplayMessage)
  | [] => none
  | msg :: rest =>
    if msg.id = some n then
      some ({ msg with reactions := some rs } :: rest)
    else
      (setReactionsAtFirstId n rs rest).map fun ms => msg :: ms

/-- The new-entry object appended in the image case of App.tsx. -/
def imageEntry (m : WebSocketMessage) : DisplayMessage :=
  { id := m.id, type := MessageType.image, sender := m.username,
    imageData := m.imageData, imageType := m.imageType, timestamp := m.timestamp }

/-- The join/leave case of App.tsx: append a synthetic notification and, when
the frame carries a userList, replace the presence list. -/
def handleJoinLeave (now : String) (s : AppState) (m : WebSocketMessage)
    (isJoin : Bool) : AppState :=
  if truthy m.username && truthy m.room then
    let u := m.username.getD ""
    let r := m.room.getD ""
    let verb := if isJoin then "joined" else "left"
    let s1 := { s with messages := s.messages ++
      [{ type := MessageType.notification,
         content := some (u ++ " has " ++ verb ++ " room \"" ++ r ++ "\"."),
         timestamp := some now }] }
    match m.userList with
    | some l => { s1 with users := l }
    | none => s1
  else s

/-- The message stream reducer: `messageHandlerRef.current` of App.tsx as a
pure function of the App state touched by it. `now` stands for
`new Date().toISOString()` at receipt time. The error case only performs
side effects (alert, possibly a disconnect elsewhere) and leaves this state
untouched. -/
def handleMessage (now : String) (s : AppState) (m : WebSocketMessage) : AppState :=
  match m.type with
  | MessageType.chat =>
    if truthy m.username && truthy m.content then
      match s.messages.find? (fun msg => decide (msg.id = m.id)) with
      | some _ => s
      | none =>
        let newMessage : DisplayMessage :=
          { id := m.id, type := MessageType.chat, sender := m.username,
            content := m.content, timestamp := m.timestamp }
        { s with messages := s.messages ++ [newMessage],
                 hasNewMessage :=
                   if m.username ≠ some s.localUser then true else s.hasNewMessage }
    else s
  | MessageType.image =>
    if truthy m.username && truthy m.imageData then
      if m.username = some s.localUser then
        match patchFirstImageMatch s.localUser m.imageData m.id s.messages with
        | some patched => { s with messages := patched }
        | none => { s with messages := s.messages ++ [imageEntry m] }
      else
        { s with messages := s.messages ++ [imageEntry m], hasNewMessage := true }
    else s
  | MessageType.reaction =>
    match m.reactionToId with
    | none => s
    | some n =>
      let valid := validReactionItems (m.history.getD [])
      let filtered := valid.filter fun r =>
        !(decide (m.username = some r.username) && decide (m.reaction = r.reaction))
      let newReactions :=
        if filtered.length < valid.length then filtered.map histItemToEntry
        else valid.map histItemToEntry
      match setReactionsAtFirstId n newReactions s.messages with
      | some updated => { s with messages := updated }
      | none => s
  | MessageType.history_batch =>
    match m.history with
    | none => s
    | some hs =>
      { s with messages := hs.map histToDisplay ++ s.messages,
               hasMoreHistory := m.hasMore.getD false,
               pageToken := m.pageToken.getD "" }
  | MessageType.user_list =>
    match m.userList with
    | none => s
    | some l => { s with users := l }
  | MessageType.notification =>
    if truthy m.content then
      { s with messages := s.messages ++
          [{ type := MessageType.notification, content := m.content,
             timestamp := some now }] }
    else s
  | MessageType.join => handleJoinLeave now s m true
  | MessageType.leave => handleJoinLeave now s m false
  | MessageType.error => s
  | MessageType.message => s
  | MessageType.load_more_history => s

/-- The onOpen handler wired in connectWebSocket (App.tsx lines 314-318):
`setIsConnected(true); setMessages([])`. -/
def handleOpen (s : AppState) : AppState :=
  { s with connected := true, messages := [] }

/-- loadMoreHistory of App.tsx as a pure function: returns the unchanged
state together with the frame transmitted, if any. `wsPresent` models
`ws.current` being non-null. -/
def loadMoreHistory (s : AppState) (wsPresent : Bool) :
    AppState × Option WebSocketMessage :=
  if !wsPresent || !s.hasMoreHistory || s.pageToken == "" then (s, none)
  else
    (s, some { type := MessageType.load_more_history, room := some s.roomName,
               pageToken := some s.pageToken, pageSize := some 50,
               username := some s.localUser })

/-! Session client: src/src/services/auth.ts (the src/unnamed/part_000 variant
has identical checkSession logic). The promise world is embedded with
`Except JsError`: a `.error` value is a rejected promise / thrown error. -/

/-- From src/types.ts SessionResponse. -/
structure SessionResponse where
  valid : Bool
  username : Option String := none
  room : Option String := none
deriving DecidableEq, Repr

/-- A thrown JavaScript error, as far as the embedding distinguishes them. -/
inductive JsError where
  | networkError
  | httpError (msg : String)
  | parseError
deriving DecidableEq, Repr

/-- The observable outcome of one `fetch` of `/session`: either the fetch
itself rejects (network failure), or a response arrives with a status, the
result of parsing its body as an error object (`some msg` when the body
parses and carries a truthy `message` field), and the result of parsing it
as a SessionResponse (`none` when unparseable). -/
structure HttpResponse where
  status : Nat
  errMessage : Option String := none
  sessionBody : Option SessionResponse := none
deriving DecidableEq, Repr

inductive FetchOutcome where
  | netFail
  | got (resp : HttpResponse)
deriving DecidableEq, Repr

/-- `response.ok`: status in the 2xx range. -/
def HttpResponse.ok (r : HttpResponse) : Bool :=
  decide (200 ≤ r.status ∧ r.status < 300)

namespace AuthService

/-- AuthService.fetchWithCredentials (auth.ts lines 7-33): a network failure
rethrows; a non-ok response throws an Error built from the parsed body
message, with a status-text fallback. -/
def fetchWithCredentials (o : FetchOutcome) : Except JsError HttpResponse :=
  match o with
  | FetchOutcome.netFail => Except.error JsError.networkError
  | FetchOutcome.got resp =>
    if resp.ok then Except.ok resp
    else Except.error (JsError.httpError
      (resp.errMessage.getD ("HTTP error! status: " ++ toString resp.status)))

/-- The try block of AuthService.checkSession: fetch, then
`response.json()`, which throws when the body is not valid JSON. -/
def checkSessionBody (o : FetchOutcome) : Except JsError SessionResponse :=
  match fetchWithCredentials o with
  | Except.error e => Except.error e
  | Except.ok resp =>
    match resp.sessionBody with
    | some r => Except.ok r
    | none => Except.error JsError.parseError

/-- AuthService.checkSession (auth.ts lines 54-64): the whole body sits in a
try/catch whose catch returns `{ valid: false }`, so the returned promise is
modelled as always resolving (`Except.ok`). -/
def checkSession (o : FetchOutcome) : Except JsError SessionResponse :=
  match checkSessionBody o with
  | Except.ok r => Except.ok r
  | Except.error _ => Except.ok { valid := false }

/-- A transport failure for the purposes of the spec: the fetch rejected, or
the response was non-2xx, or its body did not parse as a session object. -/
def transportFailure (o : FetchOutcome) : Prop :=
  o = FetchOutcome.netFail ∨
  (∃ resp, o = FetchOutcome.got resp ∧
    (resp.ok = false ∨ resp.sessionBody = none))

end AuthService

/-! Connection manager: WebSocketService of src/unnamed/part_001 (the variant
App.tsx actually constructs). Handlers live in insertion-ordered sets; the
embedding tracks them as lists of subscriber ids, and the socket reference
as an optional handle. -/

structure WebSocketServiceState where
  ws : Option Nat
  isConnecting : Bool
  messageHandlers : List Nat
  errorHandlers : List Nat
  closeHandlers : List Nat
  openHandlers : List Nat
deriving DecidableEq, Repr

namespace WebSocketService

/-- The `onclose` handler installed by setupEventHandlers (part_001 lines
153-164): log, reset `isConnecting`, invoke every close handler. Returns the
new state and the ids of the handlers invoked; `wasClean` is carried on the
close event and not branched on. -/
def onCloseEvent (st : WebSocketServiceState) (_wasClean : Bool) :
    WebSocketServiceState × List Nat :=
  ({ st with isConnecting := false }, st.closeHandlers)

/-- WebSocketService.disconnect (part_001 lines 226-250): close the socket
if present, null it, reset `isConnecting`, clear all four handler sets. -/
def disconnect (_st : WebSocketServiceState) : WebSocketServiceState :=
  { ws := none, isConnecting := false, messageHandlers := [],
    errorHandlers := [], closeHandlers := [], openHandlers := [] }

end WebSocketService

/-! Concrete sample data used by witnesses and counterexamples. -/

def sampleState : AppState :=
  { localUser := "alice", roomName := "r", connected := true,
    messages := [], users := [], hasMoreHistory := false,
    pageToken := "", hasNewMessage := false }

def chatEntry1 : DisplayMessage :=
  { id := some 1, type := MessageType.chat, sender := some "bob",
    content := some "hi", timestamp := some "t0" }

def chatEntry2 : DisplayMessage :=
  { id := some 2, type := MessageType.chat, sender := some "carol",
    content := some "yo", timestamp := some "t1" }

def chatFrame1 : WebSocketMessage :=
  { type := MessageType.chat, id := some 1, username := some "bob",
    content := some "hi", timestamp := some "t0" }

def chatFrame2 : WebSocketMessage :=
  { type := MessageType.chat, id := some 2, username := some "carol",
    content := some "yo", timestamp := some "t1" }

/-! Shared lemmas about the reducer. -/

/-- A chat frame whose id is already the id of some log entry leaves the
state unchanged: either the username/content guard fails, or the `find?`
duplicate check succeeds and the updater returns `prev`. -/
theorem chat_dup_noop (now : String) (s : AppState) (m : WebSocketMessage)
    (hty : m.type = MessageType.chat) (hdup : ∃ e ∈ s.messages, e.id = m.id) :
    handleMessage now s m = s := by
  obtain ⟨e, he, hid⟩ := hdup
  have hfind : (s.messages.find? fun msg => decide (msg.id = m.id)).isSome = true := by
    rw [List.find?_isSome]
    exact ⟨e, he, by simp [hid]⟩
  rw [Option.isSome_iff_exists] at hfind
  obtain ⟨v, hv⟩ := hfind
  simp only [handleMessage, hty, hv]
  cases truthy m.username && truthy m.content <;> simp

/-- A well-formed chat frame whose id is fresh for the log appends exactly
one new entry carrying the frame's id, sender, content and timestamp. -/
theorem chat_fresh_append (now : String) (s : AppState) (m : WebSocketMessage)
    (hty : m.type = MessageType.chat) (hu : truthy m.username = true)
    (hc : truthy m.content = true)
    (hfresh : ∀ e ∈ s.messages, ¬ e.id = m.id) :
    (handleMessage now s m).messages = s.messages ++
      [{ id := m.id, type := MessageType.chat, sender := m.username,
         content := m.content, timestamp := m.timestamp }] := by
  have hfind : s.messages.find? (fun msg => decide (msg.id = m.id)) = none := by
    rw [List.find?_eq_none]
    intro x hx
    simpa using hfresh x hx
  simp only [handleMessage, hty, hu, hc, hfind, Bool.and_self, if_true]

/-- Folding a list of well-formed chat frames with pairwise-distinct defined
ids over any state whose log is id-disjoint from them appends their ids in
receipt order. -/
theorem chat_fold_ids (now : String) :
    ∀ (frames : List WebSocketMessage) (s : AppState),
      (∀ f ∈ frames, f.type = MessageType.chat ∧ truthy f.username = true ∧
          truthy f.content = true ∧ f.id.isSome = true) →
      (frames.map WebSocketMessage.id).Nodup →
      (∀ f ∈ frames, ∀ e ∈ s.messages, e.id ≠ f.id) →
      ((frames.foldl (handleMessage now) s).messages.map DisplayMessage.id)
        = s.messages.map DisplayMessage.id ++ frames.map WebSocketMessage.id := by
  intro frames
  induction frames with
  | nil => intro s _ _ _; simp
  | cons f fs ih =>
    intro s hwf hnodup hdisj
    obtain ⟨hty, hu, hc, _⟩ := hwf f (by simp)
    have hfresh : ∀ e ∈ s.messages, ¬ e.id = f.id :=
      fun e he => hdisj f (by simp) e he
    have hstep := chat_fresh_append now s f hty hu hc hfresh
    have hnodup' : (fs.map WebSocketMessage.id).Nodup :=
      (List.nodup_cons.mp (by simpa using hnodup)).2
    have hnotmem : f.id ∉ fs.map WebSocketMessage.id :=
      (List.nodup_cons.mp (by simpa using hnodup)).1
    have hdisj' : ∀ g ∈ fs, ∀ e ∈ (handleMessage now s f).messages, e.id ≠ g.id := by
      intro g hg e he
      rw [hstep] at he
      rcases List.mem_append.mp he with hmem | hmem
      · exact hdisj g (by simp [hg]) e hmem
      · have : e.id = f.id := by
          simp only [List.mem_singleton] at hmem
          rw [hmem]
        rw [this]
        intro hcontra
        exact hnotmem (hcontra ▸ List.mem_map_of_mem WebSocketMessage.id hg)
    have ihres := ih (handleMessage now s f)
      (fun g hg => hwf g (by simp [hg])) hnodup' hdisj'
    rw [List.foldl_cons, ihres, hstep]
    simp

/-! Claim theorems. -/

/-- Claim C1: re-delivering a chat frame whose id already appears in the log
is a no-op (same state), and folding any sequence of well-formed chat frames
with pairwise-distinct defined ids over an empty log yields exactly one
entry per id, in receipt order, with no two entries sharing an id. -/
theorem chat_dedup_unique_ids (now : String) (s : AppState) (m : WebSocketMessage)
    (frames : List WebSocketMessage) (s0 : AppState) :
    (m.type = MessageType.chat → (∃ e ∈ s.messages, e.id = m.id) →
       handleMessage now s m = s) ∧
    (s0.messages = [] →
     (∀ f ∈ frames, f.type = MessageType.chat ∧ truthy f.username = true ∧
        truthy f.content = true ∧ f.id.isSome = true) →
     (frames.map WebSocketMessage.id).Nodup →
     ((frames.foldl (handleMessage now) s0).messages.map DisplayMessage.id
          = frames.map WebSocketMessage.id ∧
      ((frames.foldl (handleMessage now) s0).messages.map DisplayMessage.id).Nodup)) := by
  constructor
  · intro hty hdup
    exact chat_dup_noop now s m hty hdup
  · intro hempty hwf hnodup
    have hids := chat_fold_ids now frames s0 hwf hnodup
      (by intro f _ e he; rw [hempty] at he; exact absurd he (List.not_mem_nil e))
    rw [hempty] at hids
    simp only [List.map_nil, List.nil_append] at hids
    exact ⟨hids, hids ▸ hnodup⟩

/-- Witness for C1 at concrete inputs: a duplicate-id chat frame is a no-op
on a one-entry log, and two distinct-id chat frames folded over the empty
log produce the two ids in receipt order. -/
theorem chat_dedup_unique_ids_witness :
    handleMessage "t" { sampleState with messages := [chatEntry1] } chatFrame1
        = { sampleState with messages := [chatEntry1] } ∧
    ([chatFrame1, chatFrame2].foldl (handleMessage "t") sampleState).messages.map
        DisplayMessage.id = [some 1, some 2] := by
  have h := chat_dedup_unique_ids "t" { sampleState with messages := [chatEntry1] }
    chatFrame1 [chatFrame1, chatFrame2] sampleState
  refine ⟨h.1 rfl (by decide), ?_⟩
  have h2 := (h.2 rfl (by decide) (by decide)).1
  rw [h2]
  decide

/-- Claim C10: an inbound chat frame carrying no id is dropped whenever the
log already contains any id-less entry, because the duplicate check compares
the undefined frame id against each possibly-undefined entry id. -/
theorem idless_chat_noop (now : String) (s : AppState) (m : WebSocketMessage)
    (hty : m.type = MessageType.chat) (hid : m.id = none)
    (hnoid : ∃ e ∈ s.messages, e.id = none) :
    handleMessage now s m = s := by
  apply chat_dup_noop now s m hty
  obtain ⟨e, he, hide⟩ := hnoid
  exact ⟨e, he, by rw [hide, hid]⟩

/-- Witness for C10: a log holding one id-less notification swallows an
id-less chat frame with fresh sender and content. -/
theorem idless_chat_noop_witness :
    handleMessage "t"
      { sampleState with messages := [{ type := MessageType.notification,
                                        content := some "x", timestamp := some "t" }] }
      { type := MessageType.chat, username := some "zed", content := some "hello" }
      = { sampleState with messages := [{ type := MessageType.notification,
                                          content := some "x", timestamp := some "t" }] } :=
  idless_chat_noop "t" _ _ rfl rfl
    ⟨{ type := MessageType.notification, content := some "x", timestamp := some "t" },
     by simp, rfl⟩

def reactionFrame : WebSocketMessage :=
  { type := MessageType.reaction, username := some "carol",
    reaction := some "thumbs", reactionToId := some 1,
    history := some [{ type := MessageType.reaction, username := "carol",
                       reaction := some "thumbs", timestamp := "t2" }] }

/-- Claim C2 (refuting evidence): a reaction frame for `(carol, thumbs)`
targeting message 1, carrying the server history in which that pair is
present, leaves the pair ABSENT from the target's reactions (`some []`) —
the first of two successive identical frames does not make the pair present,
and the second leaves it absent as well. The branch commented
"Otherwise add the new reaction" can never add the frame's own pair, since
in that branch the embedded history provably lacks it. -/
theorem reaction_toggle_never_adds_pair :
    (handleMessage "t" { sampleState with messages := [chatEntry1] }
        reactionFrame).messages
      = [{ chatEntry1 with reactions := some [] }] ∧
    (handleMessage "u" (handleMessage "t" { sampleState with messages := [chatEntry1] }
        reactionFrame) reactionFrame).messages
      = [{ chatEntry1 with reactions := some [] }] := by
  decide

/-- Claim C3: a history_batch frame prepends the mapped historical entries
as one block before the existing log, each mapped entry keeping the item's
original id, its type when that is chat or image, and as reactions exactly
the valid reaction events of the item's embedded history. -/
theorem history_batch_prepend (now : String) (s : AppState) (m : WebSocketMessage)
    (hs : List HistItem) (hty : m.type = MessageType.history_batch)
    (hh : m.history = some hs) :
    (handleMessage now s m).messages = hs.map histToDisplay ++ s.messages ∧
    ∀ h ∈ hs, (histToDisplay h).id = h.id ∧
      ((h.type = MessageType.chat ∨ h.type = MessageType.image) →
         (histToDisplay h).type = h.type) ∧
      (histToDisplay h).reactions
        = h.history.map fun l => (validNestedReactions l).map nestedToEntry := by
  constructor
  · simp only [handleMessage, hty, hh]
  · intro h _
    refine ⟨rfl, ?_, rfl⟩
    rintro (hc | hi)
    · simp [histToDisplay, hc]
    · simp [histToDisplay, hi]

def histItem1 : HistItem :=
  { id := some 9, type := MessageType.chat, username := "zed",
    content := some "old1", timestamp := "h1",
    history := some [{ type := MessageType.reaction, username := "bob",
                       reaction := some "star", timestamp := "h0" }] }

def histItem2 : HistItem :=
  { id := some 10, type := MessageType.image, username := "yve",
    timestamp := "h2", imageData := some "IMG", imageType := some "png" }

def historyFrame : WebSocketMessage :=
  { type := MessageType.history_batch, history := some [histItem1, histItem2],
    hasMore := some true, pageToken := some "next" }

/-- Witness for C3: for log `[a, b]` and history `[h1, h2]` the result is
`[h1, h2, a, b]`, ids and image type are preserved, and h1 keeps its
embedded valid reaction. -/
theorem history_batch_prepend_witness :
    (handleMessage "t" { sampleState with messages := [chatEntry1, chatEntry2] }
        historyFrame).messages
      = [histToDisplay histItem1, histToDisplay histItem2, chatEntry1, chatEntry2] ∧
    (histToDisplay histItem1).id = some 9 ∧
    (histToDisplay histItem2).type = MessageType.image ∧
    (histToDisplay histItem1).reactions
      = some [{ username := "bob", reaction := "star", timestamp := "h0" }] := by
  have h := history_batch_prepend "t"
    { sampleState with messages := [chatEntry1, chatEntry2] }
    historyFrame [histItem1, histItem2] rfl rfl
  refine ⟨h.1.trans rfl, ?_, ?_, ?_⟩
  · exact ((h.2 histItem1 (by simp)).1).trans rfl
  · exact ((h.2 histItem2 (by simp)).2.1 (Or.inr rfl)).trans rfl
  · exact ((h.2 histItem1 (by simp)).2.2).trans (by decide)

/-- No entry of `pre` matches: the in-place patch skips past `pre`. -/
theorem patchFirstImageMatch_eq_none (u : String) (dat : Option String) (i : Option Nat) :
    ∀ l : List DisplayMessage, (∀ e ∈ l, ¬ imageMatch u dat e) →
      patchFirstImageMatch u dat i l = none := by
  intro l
  induction l with
  | nil => intro _; rfl
  | cons msg rest ih =>
    intro h
    rw [patchFirstImageMatch, if_neg (h msg (by simp)),
        ih (fun e he => h e (by simp [he]))]
    rfl

/-- The in-place patch rewrites exactly the first matching entry. -/
theorem patchFirstImageMatch_split (u : String) (dat : Option String) (i : Option Nat) :
    ∀ (pre : List DisplayMessage) (e : DisplayMessage) (post : List DisplayMessage),
      (∀ x ∈ pre, ¬ imageMatch u dat x) → imageMatch u dat e →
      patchFirstImageMatch u dat i (pre ++ e :: post)
        = some (pre ++ { e with id := i } :: post) := by
  intro pre
  induction pre with
  | nil =>
    intro e post _ he
    simp only [List.nil_append, patchFirstImageMatch, if_pos he]
  | cons x xs ih =>
    intro e post hpre he
    rw [List.cons_append, patchFirstImageMatch, if_neg (hpre x (by simp)),
        ih e post (fun y hy => hpre y (by simp [hy])) he]
    rfl

/-- Claim C4 (amended): an own image frame patches in place the id of the
FIRST entry with matching type, imageData and sender — whether or not that
entry already carries an id — leaving the entry count unchanged; the frame
is appended as a new entry only when no entry matches, or when the frame is
not the local user's. -/
theorem image_patch_first_match (now : String) (s : AppState) (m : WebSocketMessage)
    (hty : m.type = MessageType.image) (hu : truthy m.username = true)
    (hd : truthy m.imageData = true) :
    (m.username = some s.localUser →
      ((∀ e ∈ s.messages, ¬ imageMatch s.localUser m.imageData e) →
         (handleMessage now s m).messages = s.messages ++ [imageEntry m]) ∧
      (∀ pre e post, s.messages = pre ++ e :: post →
         (∀ x ∈ pre, ¬ imageMatch s.localUser m.imageData x) →
         imageMatch s.localUser m.imageData e →
         (handleMessage now s m).messages = pre ++ { e with id := m.id } :: post ∧
           (handleMessage now s m).messages.length = s.messages.length)) ∧
    (¬ m.username = some s.localUser →
       (handleMessage now s m).messages = s.messages ++ [imageEntry m]) := by
  have hguard : (truthy m.username && truthy m.imageData) = true := by rw [hu, hd]; rfl
  constructor
  · intro hown
    constructor
    · intro hnone
      have hp := patchFirstImageMatch_eq_none s.localUser m.imageData m.id
        s.messages hnone
      simp only [handleMessage, hty]
      rw [if_pos hguard, if_pos hown, hp]
    · intro pre e post hsplit hpre he
      have hp : patchFirstImageMatch s.localUser m.imageData m.id s.messages
          = some (pre ++ { e with id := m.id } :: post) := by
        rw [hsplit]
        exact patchFirstImageMatch_split s.localUser m.imageData m.id pre e post hpre he
      constructor
      · simp only [handleMessage, hty]
        rw [if_pos hguard, if_pos hown, hp]
      · simp only [handleMessage, hty]
        rw [if_pos hguard, if_pos hown, hp]
        simp [hsplit]
  · intro hother
    simp only [handleMessage, hty]
    rw [if_pos hguard, if_neg hother]

def imgEntryWithId : DisplayMessage :=
  { id := some 5, type := MessageType.image, sender := some "alice",
    imageData := some "DATA", imageType := some "png", timestamp := some "t0" }

def imgState : AppState := { sampleState with messages := [imgEntryWithId] }

def imgFrame : WebSocketMessage :=
  { type := MessageType.image, id := some 7, username := some "alice",
    imageData := some "DATA", imageType := some "png", timestamp := some "t1" }

/-- Counterexample to C4 as stated: the log holds NO id-less entry, only an
already-confirmed image entry (id 5) with the same imageData and sender, so
the claim requires the own image echo (id 7) to be appended; the code
instead patches the confirmed entry, overwriting id 5 with 7 and keeping
the count at one. -/
theorem image_patch_ignores_missing_id :
    (handleMessage "t" imgState imgFrame).messages.length
        ≠ imgState.messages.length + 1 ∧
    (handleMessage "t" imgState imgFrame).messages.map DisplayMessage.id
        = [some 7] := by
  decide

def imgEntryNoId : DisplayMessage :=
  { type := MessageType.image, sender := some "alice",
    imageData := some "DATA", imageType := some "png", timestamp := some "t0" }

/-- Witness for the amended C4: with a single id-less optimistic entry in
the log, the own image echo patches that entry in place and the count is
unchanged. -/
theorem image_patch_first_match_witness :
    (handleMessage "t" { sampleState with messages := [imgEntryNoId] }
        imgFrame).messages = [{ imgEntryNoId with id := some 7 }] ∧
    (handleMessage "t" { sampleState with messages := [imgEntryNoId] }
        imgFrame).messages.length
      = ({ sampleState with messages := [imgEntryNoId] } : AppState).messages.length := by
  have h := image_patch_first_match "t"
    { sampleState with messages := [imgEntryNoId] } imgFrame rfl (by decide) (by decide)
  have h2 := (h.1 rfl).2 [] imgEntryNoId [] rfl (by simp) (by decide)
  exact ⟨h2.1.trans rfl, h2.2⟩

/-- Claim C5: after a history_batch frame the pagination cursor equals
exactly the values carried on the frame (with the code's defaulting for
absent fields), independently of the previously stored cursor. -/
theorem history_batch_cursor_replaced (now : String) (s : AppState)
    (m : WebSocketMessage) (hs : List HistItem)
    (hty : m.type = MessageType.history_batch) (hh : m.history = some hs) :
    (handleMessage now s m).hasMoreHistory = m.hasMore.getD false ∧
    (handleMessage now s m).pageToken = m.pageToken.getD "" := by
  simp [handleMessage, hty, hh]

/-- Witness for C5: the same frame produces the same cursor from two
different prior cursors, and it equals the frame's values. -/
theorem history_batch_cursor_replaced_witness :
    (handleMessage "t" { sampleState with hasMoreHistory := true, pageToken := "old" }
        historyFrame).hasMoreHistory = true ∧
    (handleMessage "t" { sampleState with hasMoreHistory := true, pageToken := "old" }
        historyFrame).pageToken = "next" ∧
    (handleMessage "t" sampleState historyFrame).pageToken = "next" := by
  have h1 := history_batch_cursor_replaced "t"
    { sampleState with hasMoreHistory := true, pageToken := "old" }
    historyFrame [histItem1, histItem2] rfl rfl
  have h2 := history_batch_cursor_replaced "t" sampleState
    historyFrame [histItem1, histItem2] rfl rfl
  exact ⟨h1.1.trans rfl, h1.2.trans rfl, h2.2.trans rfl⟩

/-- Claim C6: loadMoreHistory transmits nothing (and leaves the state
unchanged) when hasMore is false or the stored pageToken is empty; with a
live connection, hasMore true and a non-empty token it transmits exactly one
load_more_history frame carrying the stored token and page size 50. -/
theorem loadMoreHistory_gating (s : AppState) (w : Bool) :
    ((s.hasMoreHistory = false ∨ s.pageToken = "") →
       loadMoreHistory s w = (s, none)) ∧
    (loadMoreHistory s w).fst = s ∧
    (w = true → s.hasMoreHistory = true → s.pageToken ≠ "" →
       (loadMoreHistory s w).snd
         = some { type := MessageType.load_more_history, room := some s.roomName,
                  pageToken := some s.pageToken, pageSize := some 50,
                  username := some s.localUser }) := by
  refine ⟨?_, ?_, ?_⟩
  · rintro (hm | hp)
    · simp [loadMoreHistory, hm]
    · simp [loadMoreHistory, hp]
  · unfold loadMoreHistory
    split <;> rfl
  · intro hw hm hp
    have hps : (s.pageToken == "") = false := beq_eq_false_iff_ne.mpr hp
    simp [loadMoreHistory, hw, hm, hps]

/-- Witness for C6: no frame with hasMore false despite a stored token; one
well-formed frame with hasMore true and token "pt". -/
theorem loadMoreHistory_gating_witness :
    loadMoreHistory { sampleState with hasMoreHistory := false, pageToken := "pt" } true
      = ({ sampleState with hasMoreHistory := false, pageToken := "pt" }, none) ∧
    (loadMoreHistory { sampleState with hasMoreHistory := true, pageToken := "pt" } true).snd
      = some { type := MessageType.load_more_history, room := some "r",
               pageToken := some "pt", pageSize := some 50,
               username := some "alice" } := by
  have h1 := loadMoreHistory_gating
    { sampleState with hasMoreHistory := false, pageToken := "pt" } true
  have h2 := loadMoreHistory_gating
    { sampleState with hasMoreHistory := true, pageToken := "pt" } true
  exact ⟨h1.1 (Or.inl rfl), (h2.2.2 rfl rfl (by decide)).trans rfl⟩

/-- Claim C7: checkSession always resolves (its whole body is inside a
try/catch returning a value in every case), and on a network failure, a
non-2xx response, or an unparseable body it resolves to valid := false. -/
theorem checkSession_never_throws (o : FetchOutcome) :
    (∃ r, AuthService.checkSession o = Except.ok r) ∧
    (AuthService.transportFailure o →
       AuthService.checkSession o = Except.ok { valid := false }) := by
  constructor
  · unfold AuthService.checkSession
    cases AuthService.checkSessionBody o with
    | ok r => exact ⟨r, rfl⟩
    | error e => exact ⟨{ valid := false }, rfl⟩
  · intro hf
    rcases hf with hnet | ⟨resp, hgot, hbad⟩
    · rw [hnet]; rfl
    · rw [hgot]
      rcases hbad with hok | hbody
      · simp [AuthService.checkSession, AuthService.checkSessionBody,
              AuthService.fetchWithCredentials, hok]
      · cases hok2 : resp.ok with
        | false =>
          simp [AuthService.checkSession, AuthService.checkSessionBody,
                AuthService.fetchWithCredentials, hok2]
        | true =>
          simp [AuthService.checkSession, AuthService.checkSessionBody,
                AuthService.fetchWithCredentials, hok2, hbody]

/-- Witness for C7: a rejected fetch is a transport failure and checkSession
resolves to valid := false on it. -/
theorem checkSession_never_throws_witness :
    AuthService.transportFailure FetchOutcome.netFail ∧
    AuthService.checkSession FetchOutcome.netFail = Except.ok { valid := false } :=
  ⟨Or.inl rfl, (checkSession_never_throws FetchOutcome.netFail).2 (Or.inl rfl)⟩

def wsLiveState : WebSocketServiceState :=
  { ws := some 0, isConnecting := false, messageHandlers := [1],
    errorHandlers := [2], closeHandlers := [3], openHandlers := [4] }

/-- Counterexample to C8 as stated: after a close event (clean or not) on a
state with live subscribers, the message handler set is NOT empty and the
underlying connection is NOT null — the onclose handler only resets the
connecting flag and notifies close subscribers. -/
theorem close_event_keeps_subscribers :
    (WebSocketService.onCloseEvent wsLiveState true).fst.messageHandlers ≠ [] ∧
    (WebSocketService.onCloseEvent wsLiveState true).fst.ws ≠ none ∧
    (WebSocketService.onCloseEvent wsLiveState false).fst.messageHandlers ≠ [] ∧
    (WebSocketService.onCloseEvent wsLiveState false).fst.ws ≠ none := by
  decide

/-- Claim C8 (amended): the close event handler preserves all four
subscriber sets and the connection reference, only resetting the connecting
flag and invoking the close subscribers; the four sets are emptied and the
connection nulled only by an explicit disconnect() call. -/
theorem disconnect_clears_subscribers (st : WebSocketServiceState) (wasClean : Bool) :
    ((WebSocketService.onCloseEvent st wasClean).fst.messageHandlers = st.messageHandlers ∧
     (WebSocketService.onCloseEvent st wasClean).fst.errorHandlers = st.errorHandlers ∧
     (WebSocketService.onCloseEvent st wasClean).fst.closeHandlers = st.closeHandlers ∧
     (WebSocketService.onCloseEvent st wasClean).fst.openHandlers = st.openHandlers ∧
     (WebSocketService.onCloseEvent st wasClean).fst.ws = st.ws ∧
     (WebSocketService.onCloseEvent st wasClean).fst.isConnecting = false ∧
     (WebSocketService.onCloseEvent st wasClean).snd = st.closeHandlers) ∧
    ((WebSocketService.disconnect st).messageHandlers = [] ∧
     (WebSocketService.disconnect st).errorHandlers = [] ∧
     (WebSocketService.disconnect st).closeHandlers = [] ∧
     (WebSocketService.disconnect st).openHandlers = [] ∧
     (WebSocketService.disconnect st).ws = none) := by
  simp [WebSocketService.onCloseEvent, WebSocketService.disconnect]

/-- Claim C9: the onOpen handler sets connected and resets the message log
to empty, for every prior log contents, while leaving the presence list and
the pagination cursor untouched. -/
theorem open_resets_log (s : AppState) :
    (handleOpen s).messages = [] ∧ (handleOpen s).connected = true ∧
    (handleOpen s).users = s.users ∧
    (handleOpen s).hasMoreHistory = s.hasMoreHistory ∧
    (handleOpen s).pageToken = s.pageToken := by
  simp [handleOpen]

end BunnyChat
